import Mathlib

/-!
Verification of the LiveStream pull player (Qt/FFmpeg) against its
natural-language specification.

The development shallowly embeds the parts of the program the claims
are about:

* `PacketQueue` — the bounded thread-safe FIFO of `packetqueue.cpp` /
  `packetqueue.h`, with the `Block` and `DropOldest` overflow policies.
  Packets are abstracted to an arbitrary type `α`; the player uses
  `AVPacket` values, whose payload is irrelevant to the queue logic.
  The mutex/condition-variable machinery is modelled by making each
  operation a pure state transformer; a `push`/`pop` that would block
  forever in a quiescent system (no concurrent producer/consumer and no
  flag change) is reported as a `blocked` result with the state
  unchanged.
* the demux retry loop of `LiveStreamPlayer::demuxLoop`
  (livestreamplayer.cpp, lines 270-383), specialised to the scenario the
  claims exercise: every `openStream` call fails and no external stop is
  requested.
* the audio write pump `LiveStreamPlayer::processAudioQueue`
  (livestreamplayer.cpp, lines 1003-1038) together with
  `emitAudioSamples`; the `QAudioOutput` sink is modelled by its free
  byte count: `bytesFree()` returns the current count and `write(buf,n)`
  accepts `min n free` bytes (never zero while space is free, so the
  source's `written <= 0` early-return is unreachable in the model).
* URL sanitisation `LiveStreamPlayer::sanitizeInputUrl`
  (livestreamplayer.cpp, lines 1103-1128).  `QUrl::fromUserInput` and
  `QUrlQuery` are modelled by a record holding the parse outcome, the
  scheme, the non-query remainder and the query as an ordered key/value
  list; `QUrlQuery::removeQueryItem` removes the first pair with the
  given key, as documented by Qt.
* the guard of `LiveStreamPlayer::start` (livestreamplayer.cpp, lines
  136-161) over a sequential player state.
-/

/-- Overflow policy of a `PacketQueue` (packetqueue.h, enum
`PacketQueue::OverflowPolicy`). -/
inductive OverflowPolicy where
  | Block
  | DropOldest
  deriving DecidableEq, Repr

/-- State of a `PacketQueue` (packetqueue.h, data members of class
`PacketQueue`): the deque of packets (front at the head of the list),
the capacity `m_maxSize`, the `m_closed` flag and the policy
`m_policy`.

The field `droppedCount` is *modelled from the spec*: the player code
(`livestreamplayer.cpp`) calls `droppedCount()` and
`resetDroppedCount()` on its video queue, but the `packetqueue.h` /
`packetqueue.cpp` snapshots available under the source tree predate the
counter.  Following the spec (§4.1: under DropOldest, each dropped
packet increments a dropped-counter; §3: `dropped_count` is reset at
`start`), the counter is incremented exactly once per packet discarded
by the `DropOldest` branch of `push`, and reset by
`resetDroppedCount`. -/
structure PacketQueue (α : Type) where
  queue : List α
  maxSize : Nat
  closed : Bool
  policy : OverflowPolicy
  droppedCount : Nat
  deriving DecidableEq, Repr

/-- `PacketQueue::PacketQueue(maxPackets, policy)` (packetqueue.cpp,
lines 21-23): empty deque, open, dropped counter at zero. -/
def PacketQueue.init (α : Type) (maxPackets : Nat) (policy : OverflowPolicy) :
    PacketQueue α :=
  { queue := [], maxSize := maxPackets, closed := false, policy := policy,
    droppedCount := 0 }

/-- Result of `PacketQueue::push`: `blocked` marks a Block-policy call
that waits forever in a quiescent system, `failed`/`succeeded` are the
`false`/`true` returns of the source. -/
inductive PushResult where
  | blocked
  | failed
  | succeeded
  deriving DecidableEq, Repr

/-- The `DropOldest` drop loop of `PacketQueue::push` (packetqueue.cpp,
lines 65-70): while the deque holds at least `maxSize` packets, pop and
release the front one.  The `!m_closed && running` conjuncts of the
source's loop guard are hoisted into `PacketQueue.push` (they cannot
change inside the loop).  With `maxSize = 0` the source would call
`front()` on an empty deque (undefined behaviour); the model exits the
loop there instead, and every theorem about `DropOldest` pushes assumes
`1 ≤ maxSize`.  Returns the remaining deque and the number of packets
dropped. -/
def dropLoop {α : Type} (l : List α) (maxSize : Nat) : List α × Nat :=
  if maxSize ≤ l.length then
    match l with
    | [] => ([], 0)
    | _ :: xs =>
      let (r, d) := dropLoop xs maxSize
      (r, d + 1)
  else (l, 0)

/-- `PacketQueue::push(packet, running)` (packetqueue.cpp, lines
56-84).  `refOk` is the outcome of `av_packet_ref`: when it fails the
source returns `false` after the policy branch, so under `DropOldest`
packets may already have been dropped. -/
def PacketQueue.push {α : Type} (q : PacketQueue α) (p : α)
    (running refOk : Bool) : PushResult × PacketQueue α :=
  match q.policy with
  | OverflowPolicy.Block =>
    -- wait for: m_closed || size < m_maxSize || !running
    if q.closed = false ∧ running = true ∧ q.maxSize ≤ q.queue.length then
      (PushResult.blocked, q)
    else if q.closed = true ∨ running = false then
      (PushResult.failed, q)
    else if refOk = false then
      (PushResult.failed, q)
    else
      (PushResult.succeeded, { q with queue := q.queue ++ [p] })
  | OverflowPolicy.DropOldest =>
    -- loop guard `!m_closed && running.load()` hoisted: when it fails the
    -- loop body never runs and the source returns false with the state
    -- untouched
    if q.closed = true ∨ running = false then
      (PushResult.failed, q)
    else
      let (l, d) := dropLoop q.queue q.maxSize
      let q' := { q with queue := l, droppedCount := q.droppedCount + d }
      if refOk = false then
        (PushResult.failed, q')
      else
        (PushResult.succeeded, { q' with queue := q'.queue ++ [p] })

/-- Result of `PacketQueue::pop`: `blocked` marks a call that waits
forever in a quiescent system, `failed` the `false` return, `popped x`
the `true` return delivering the front packet `x`. -/
inductive PopResult (α : Type) where
  | blocked
  | failed
  | popped (x : α)
  deriving DecidableEq, Repr

/-- `PacketQueue::pop(outPacket, running)` (packetqueue.cpp, lines
92-106): wait for `m_closed || !m_queue.empty() || !running`; then
return `false` on an empty deque, else move the front packet out. -/
def PacketQueue.pop {α : Type} (q : PacketQueue α) (running : Bool) :
    PopResult α × PacketQueue α :=
  if q.closed = false ∧ q.queue.isEmpty = true ∧ running = true then
    (PopResult.blocked, q)
  else
    match q.queue with
    | [] => (PopResult.failed, q)
    | x :: xs => (PopResult.popped x, { q with queue := xs })

/-- `PacketQueue::clear()` (packetqueue.cpp, lines 111-118): release
every buffered packet and empty the deque. -/
def PacketQueue.clear {α : Type} (q : PacketQueue α) : PacketQueue α :=
  { q with queue := [] }

/-- `PacketQueue::close()` (packetqueue.cpp, lines 123-130): set
`m_closed` and wake all waiters. -/
def PacketQueue.close {α : Type} (q : PacketQueue α) : PacketQueue α :=
  { q with closed := true }

/-- `PacketQueue::open()` (packetqueue.cpp, lines 135-141): clear
`m_closed`.  (`open` is a Lean keyword, hence the name.) -/
def PacketQueue.openQueue {α : Type} (q : PacketQueue α) : PacketQueue α :=
  { q with closed := false }

/-- `PacketQueue::isOpen()` (packetqueue.cpp, lines 147-150). -/
def PacketQueue.isOpen {α : Type} (q : PacketQueue α) : Bool :=
  !q.closed

/-- `PacketQueue::size()` (packetqueue.cpp, lines 156-159). -/
def PacketQueue.size {α : Type} (q : PacketQueue α) : Nat :=
  q.queue.length

/-- The trim loop of `PacketQueue::setMaxSize` (packetqueue.cpp, lines
41-45): while the deque holds strictly more than `maxSize` packets,
pop and release the front one. -/
def trimLoop {α : Type} (l : List α) (maxSize : Nat) : List α :=
  if maxSize < l.length then
    match l with
    | [] => []
    | _ :: xs => trimLoop xs maxSize
  else l

/-- `PacketQueue::setMaxSize(maxPackets)` (packetqueue.cpp, lines
37-48): store the new capacity; under `DropOldest`, trim the excess
from the front.  Under `Block` nothing is trimmed. -/
def PacketQueue.setMaxSize {α : Type} (q : PacketQueue α) (maxPackets : Nat) :
    PacketQueue α :=
  let q' := { q with maxSize := maxPackets }
  match q.policy with
  | OverflowPolicy.DropOldest => { q' with queue := trimLoop q'.queue maxPackets }
  | OverflowPolicy.Block => q'

/-- `resetDroppedCount()`.  Modelled from the spec: §4.1 lists
`reset_dropped_count()` and §3 states the counter restarts at `start`;
the member is missing from the `packetqueue` snapshot under the source
tree although `livestreamplayer.cpp` calls it. -/
def PacketQueue.resetDroppedCount {α : Type} (q : PacketQueue α) :
    PacketQueue α :=
  { q with droppedCount := 0 }

/-- Harness: push a whole list of packets in order with `running = true`
and `av_packet_ref` succeeding, recording whether every push returned
`true`. -/
def PacketQueue.pushAll {α : Type} (q : PacketQueue α) (ps : List α) :
    PacketQueue α × Bool :=
  match ps with
  | [] => (q, true)
  | p :: rest =>
    let (r, q') := q.push p true true
    let (qf, ok) := q'.pushAll rest
    (qf, (r = PushResult.succeeded : Bool) && ok)

/-- Harness: perform `n` consecutive pops, collecting the packets
delivered, stopping early at the first pop that does not deliver one. -/
def PacketQueue.drainN {α : Type} (q : PacketQueue α) (running : Bool) :
    Nat → List α × PacketQueue α
  | 0 => ([], q)
  | n + 1 =>
    match q.pop running with
    | (PopResult.popped x, q') =>
      let (xs, qf) := q'.drainN running n
      (x :: xs, qf)
    | (_, q') => ([], q')

/-- `LiveStreamPlayer::setMaxReconnectAttempts(attempts)`
(livestreamplayer.cpp, lines 389-393): clamp negatives to 0 and store. -/
def setMaxReconnectAttempts (attempts : Int) : Nat :=
  if attempts < 0 then 0 else attempts.toNat

/-- `LiveStreamPlayer::setReconnectDelayMs(delayMs)`
(livestreamplayer.cpp, lines 399-403): clamp negatives to 0 and store. -/
def setReconnectDelayMs (delayMs : Int) : Nat :=
  if delayMs < 0 then 0 else delayMs.toNat

/-- Observable steps of `LiveStreamPlayer::demuxLoop` in the
open-always-fails scenario: each `openStream` call, each
`statusChanged("Retrying connection (k/n)")`, the terminal
`errorOccurred("Failed to connect after n attempts.")` and the
`statusChanged("Stopped")`. -/
inductive DemuxEvent where
  | openAttempt
  | statusRetrying (k n : Nat)
  | errorRetryExhausted (n : Nat)
  | statusStopped
  deriving DecidableEq, Repr

/-- `DemuxEvent.statusRetrying` recogniser, for counting "Retrying
connection" emissions. -/
def DemuxEvent.isRetrying : DemuxEvent → Bool
  | DemuxEvent.statusRetrying _ _ => true
  | _ => false

/-- `LiveStreamPlayer::demuxLoop` (livestreamplayer.cpp, lines 270-294)
from an iteration entered with `retryCount` failures already recorded,
in the scenario where every `openStream(url)` call fails and no external
stop is requested (`m_running` stays true until the loop itself clears
it, `m_stopRequested` stays false).  Each iteration: the open attempt
fails, `retryCount` is incremented, and against
`maxRetries = m_maxReconnectAttempts` (an `int`, always `≥ 0` after
`setMaxReconnectAttempts`, so the source's `maxRetries >= 0` conjunct
holds): at or beyond the cap the loop emits the terminal error with
`std::max(0, maxRetries)`, emits "Stopped", clears `m_running` and
breaks; below the cap it emits "Retrying connection
(retryCount/maxRetries)", sleeps `m_reconnectDelayMs` (invisible here)
and loops.  Returns the emitted events and the final value of
`m_running`. -/
def demuxLoopAllFailFrom (maxRetries retryCount : Nat) :
    List DemuxEvent × Bool :=
  if maxRetries ≤ retryCount + 1 then
    ([DemuxEvent.openAttempt, DemuxEvent.errorRetryExhausted maxRetries,
      DemuxEvent.statusStopped], false)
  else
    let (evs, r) := demuxLoopAllFailFrom maxRetries (retryCount + 1)
    (DemuxEvent.openAttempt ::
      DemuxEvent.statusRetrying (retryCount + 1) maxRetries :: evs, r)
termination_by maxRetries - retryCount

/-- `LiveStreamPlayer::demuxLoop` entered after `start` (so with
`retryCount = 0` and `m_running = true`), when every open attempt
fails. -/
def demuxLoopAllFail (maxRetries : Nat) : List DemuxEvent × Bool :=
  demuxLoopAllFailFrom maxRetries 0

/-- The inner write loop of `LiveStreamPlayer::processAudioQueue`
(livestreamplayer.cpp, lines 1017-1036) on one buffer: while bytes of
the buffer remain, read `bytesFree()`; if none are free, stop with the
unwritten remainder (the source re-queues it at the front and returns);
otherwise `write` the remainder, which the sink accepts up to its free
space.  Bytes are abstract (`Nat`).  Returns the unwritten remainder,
the sink's remaining free space and the bytes written, in order. -/
def writeChunks (samples : List Nat) (free : Nat) :
    List Nat × Nat × List Nat :=
  if _hs : samples.length = 0 then ([], free, [])
  else if _hf : free = 0 then (samples, 0, [])
  else
    let w := min samples.length free
    let (rem, free', out) := writeChunks (samples.drop w) (free - w)
    (rem, free', samples.take w ++ out)
termination_by samples.length
decreasing_by
  simp only [List.length_drop]
  omega

/-- The buffer loop of `LiveStreamPlayer::processAudioQueue`
(livestreamplayer.cpp, lines 1015-1037) over the local batch obtained
by swapping out the pending FIFO: process buffers front to back; when a
buffer completes, continue with the next; when the sink runs out of
free bytes mid-buffer, push the remainder onto the (now empty) pending
FIFO and return — the buffers of the batch not yet processed are
discarded with the local deque.  Returns the new pending FIFO, the
sink's remaining free space and the bytes written this tick. -/
def processBatch (batch : List (List Nat)) (free : Nat) :
    List (List Nat) × Nat × List Nat :=
  match batch with
  | [] => ([], free, [])
  | buf :: rest =>
    let (rem, free', out) := writeChunks buf free
    if rem.isEmpty then
      let (pend, free'', out') := processBatch rest free'
      (pend, free'', out ++ out')
    else
      ([rem], free', out)

/-- One tick of `LiveStreamPlayer::processAudioQueue`
(livestreamplayer.cpp, lines 1003-1038), with the audio output present:
swap the pending FIFO into a local batch, then run the buffer loop.
`pending` is `m_audioPendingQueue` (front at the head), `free` the
sink's free byte count. -/
def processAudioQueue (pending : List (List Nat)) (free : Nat) :
    List (List Nat) × Nat × List Nat :=
  processBatch pending free

/-- `LiveStreamPlayer::emitAudioSamples(samples)` (livestreamplayer.cpp,
lines 995-998): append the decoded buffer to the back of the pending
FIFO. -/
def emitAudioSamples (pending : List (List Nat)) (samples : List Nat) :
    List (List Nat) :=
  pending ++ [samples]

/-- Model of a URL string as consumed by
`LiveStreamPlayer::sanitizeInputUrl`: `isEmptyStr` records
`QString::isEmpty()` of the original text, `valid` the outcome of
`QUrl::fromUserInput(url).isValid()`, `scheme` the parsed scheme,
`base` everything outside the query, and `query` the ordered key/value
pairs of the query string as exposed by `QUrlQuery`. -/
structure UrlModel where
  isEmptyStr : Bool
  valid : Bool
  scheme : String
  base : String
  query : List (String × String)
  deriving DecidableEq, Repr

/-- `QUrlQuery::hasQueryItem(key)`: some pair with the given key
exists. -/
def hasQueryItem (key : String) (q : List (String × String)) : Bool :=
  q.any (fun kv => kv.1 = key)

/-- `QUrlQuery::removeQueryItem(key)`: remove the first pair whose key
matches; the rest, later pairs with the same key included, stay. -/
def removeQueryItem (key : String) : List (String × String) →
    List (String × String)
  | [] => []
  | kv :: rest =>
    if kv.1 = key then rest else kv :: removeQueryItem key rest

/-- `QString::toLower` as applied to URL schemes: lower-case each
character (schemes are ASCII, where `Char.toLower` agrees with Qt). -/
def qtToLower (s : String) : String :=
  String.mk (s.data.map Char.toLower)

/-- `LiveStreamPlayer::sanitizeInputUrl(url)` (livestreamplayer.cpp,
lines 1103-1128): an invalid URL is returned unchanged; for scheme
`rtmp` or `tcp` (lower-cased) the first `listen` and the first
`listen_timeout` query items are removed and the URL rebuilt when
anything was removed; every other URL is returned unchanged. -/
def sanitizeInputUrl (u : UrlModel) : UrlModel :=
  if u.valid = false then u
  else
    let scheme := qtToLower u.scheme
    if scheme = "rtmp" ∨ scheme = "tcp" then
      let changed1 := hasQueryItem "listen" u.query
      let q1 := if changed1 then removeQueryItem "listen" u.query else u.query
      let changed2 := hasQueryItem "listen_timeout" q1
      let q2 := if changed2 then removeQueryItem "listen_timeout" q1 else q1
      if changed1 || changed2 then { u with query := q2 } else u
    else u

/-- Outbound player signals the modelled operations emit. -/
inductive PlayerEvent where
  | errorUrlEmpty
  | statusConnecting
  | statusStopped
  deriving DecidableEq, Repr

/-- Sequential state of `LiveStreamPlayer` (livestreamplayer.h, data
members), restricted to what `start`/`stop` touch: the `m_running` and
`m_stopRequested` flags, the two queues, the current URL, the pending
audio FIFO, the published bitrate (only ever reset to 0 by the modelled
operations, kept as a `Nat`) and the number of live worker threads
(0 when none is joinable, 3 after `start` spawns demux, video and
audio). -/
structure PlayerState where
  running : Bool
  stopRequested : Bool
  videoQueue : PacketQueue Nat
  audioQueue : PacketQueue Nat
  currentUrl : UrlModel
  audioPendingQueue : List (List Nat)
  bitrateKbps : Nat
  workerThreads : Nat
  deriving DecidableEq, Repr

/-- `LiveStreamPlayer::stopInternal()` (livestreamplayer.cpp, lines
198-237), run to completion: clear `m_running`, set `m_stopRequested`,
close both queues, join the three workers, clear the queues, close the
stream, clear the pending audio FIFO, zero the bitrate, tear down the
audio sink and emit "Stopped". -/
def stopInternal (s : PlayerState) : PlayerState × List PlayerEvent :=
  ({ s with
      running := false
      stopRequested := true
      videoQueue := s.videoQueue.close.clear
      audioQueue := s.audioQueue.close.clear
      workerThreads := 0
      audioPendingQueue := []
      bitrateKbps := 0 },
    [PlayerEvent.statusStopped])

/-- `LiveStreamPlayer::stop()` (livestreamplayer.cpp, lines 166-198) as
observed once the asynchronous shutdown has completed: the quick exit
returns immediately when nothing runs and no thread is joinable;
otherwise the internal shutdown runs. -/
def stopPlayer (s : PlayerState) : PlayerState × List PlayerEvent :=
  if s.running = false ∧ s.workerThreads = 0 then (s, [])
  else stopInternal s

/-- `LiveStreamPlayer::start(url)` (livestreamplayer.cpp, lines
136-161): an empty URL is rejected with an error before anything else
happens; otherwise the previous session is stopped and awaited, the URL
sanitised and stored, both queues cleared and reopened, the video
queue's dropped counter reset, the flags reset, "Connecting" emitted
and the three worker threads spawned.  Returns the new state and the
emitted events. -/
def startPlayer (s : PlayerState) (url : UrlModel) :
    PlayerState × List PlayerEvent :=
  if url.isEmptyStr = true then
    (s, [PlayerEvent.errorUrlEmpty])
  else
    let (s1, ev1) := stopPlayer s
    ({ s1 with
        currentUrl := sanitizeInputUrl url
        videoQueue := s1.videoQueue.clear.resetDroppedCount.openQueue
        audioQueue := s1.audioQueue.clear.openQueue
        stopRequested := false
        running := true
        bitrateKbps := 0
        workerThreads := 3 },
      ev1 ++ [PlayerEvent.statusConnecting])

/-!  Theorems.  Helper lemmas come first, then one theorem per claim
(with its witness or counterexample where required). -/

theorem push_not_admitted {α : Type} (q : PacketQueue α) (p : α)
    (running refOk : Bool) (h : q.closed = true ∨ running = false) :
    q.push p running refOk = (PushResult.failed, q) := by
  obtain ⟨Q, M, C, P, D⟩ := q
  cases P <;> rcases h with h | h <;> simp_all [PacketQueue.push]

theorem drainN_closed {α : Type} (Q : List α) (M : Nat) (P : OverflowPolicy)
    (D : Nat) (running : Bool) :
    PacketQueue.drainN
        { queue := Q, maxSize := M, closed := true, policy := P,
          droppedCount := D } running Q.length
      = (Q, { queue := [], maxSize := M, closed := true, policy := P,
              droppedCount := D }) := by
  induction Q with
  | nil => simp [PacketQueue.drainN]
  | cons x xs ih =>
    simp only [List.length_cons, PacketQueue.drainN, PacketQueue.pop]
    simp [ih]

/-- C5: after `close()`, every push returns false and leaves the queue
untouched, while pops drain the packets resident at close time in FIFO
order, one per pop, and once the queue is empty every further pop
returns false. -/
theorem closed_queue_rejects_push_and_drains {α : Type} (q : PacketQueue α)
    (p : α) (running refOk : Bool) :
    q.close.push p running refOk = (PushResult.failed, q.close)
  ∧ q.close.drainN running q.queue.length
      = (q.queue, { q.close with queue := [] })
  ∧ ({ q.close with queue := [] } : PacketQueue α).pop running
      = (PopResult.failed, { q.close with queue := [] }) := by
  obtain ⟨Q, M, C, P, D⟩ := q
  refine ⟨push_not_admitted _ _ _ _ (Or.inl rfl), ?_, ?_⟩
  · exact drainN_closed Q M P D running
  · simp [PacketQueue.pop, PacketQueue.close]

/-- C10: a push on a closed queue, or with the running flag false,
returns false and leaves the whole queue state — contents and dropped
counter included — unchanged, under either policy. -/
theorem push_rejected_when_closed_or_stopped {α : Type} (q : PacketQueue α)
    (p : α) (running refOk : Bool) (h : q.closed = true ∨ running = false) :
    q.push p running refOk = (PushResult.failed, q) :=
  push_not_admitted q p running refOk h

theorem push_rejected_when_closed_or_stopped_witness :
    (({ queue := [5], maxSize := 2, closed := true,
        policy := OverflowPolicy.DropOldest,
        droppedCount := 0 } : PacketQueue Nat).closed = true ∨
      (true : Bool) = false)
  ∧ PacketQueue.push
      ({ queue := [5], maxSize := 2, closed := true,
         policy := OverflowPolicy.DropOldest,
         droppedCount := 0 } : PacketQueue Nat) 7 true true
      = (PushResult.failed,
         { queue := [5], maxSize := 2, closed := true,
           policy := OverflowPolicy.DropOldest, droppedCount := 0 }) :=
  ⟨Or.inl rfl,
   push_rejected_when_closed_or_stopped _ 7 true true (Or.inl rfl)⟩

/-- C4 counterexample: on a queue holding one packet (reachable by one
successful push on a fresh Block queue of capacity 2), `close()`
followed by `open()` leaves the packet in place — the queue does not
end up holding zero packets as the claim states. -/
theorem close_open_keeps_contents_example :
    (((PacketQueue.init Nat 2 OverflowPolicy.Block).push 7 true
        true).2.close.openQueue).size = 1
  ∧ ¬ (((PacketQueue.init Nat 2 OverflowPolicy.Block).push 7 true
        true).2.close.openQueue).size = 0 := by
  decide

/-- C4 (amended): `close()` followed by `open()` preserves the queue's
capacity and overflow policy — and also its contents and dropped
counter: the pair only toggles the closed flag, it does not empty the
queue (`clear()` does that). -/
theorem close_open_preserves_everything {α : Type} (q : PacketQueue α) :
    q.close.openQueue = { q with closed := false }
  ∧ q.close.openQueue.maxSize = q.maxSize
  ∧ q.close.openQueue.policy = q.policy
  ∧ q.close.openQueue.queue = q.queue :=
  ⟨rfl, rfl, rfl, rfl⟩

/-- C7: with `max_attempts = 0` (as stored by
`setMaxReconnectAttempts 0`) and the first open attempt failing, the
demux loop makes exactly one open attempt, emits no "Retrying
connection" message, emits the terminal error and then "Stopped", and
exits with the running flag cleared. -/
theorem demux_zero_attempts_terminal :
    demuxLoopAllFail (setMaxReconnectAttempts 0)
      = ([DemuxEvent.openAttempt, DemuxEvent.errorRetryExhausted 0,
          DemuxEvent.statusStopped], false)
  ∧ ((demuxLoopAllFail (setMaxReconnectAttempts 0)).1.countP
        (fun e => e = DemuxEvent.openAttempt)) = 1
  ∧ ((demuxLoopAllFail (setMaxReconnectAttempts 0)).1.countP
        (fun e => DemuxEvent.isRetrying e)) = 0
  ∧ (demuxLoopAllFail (setMaxReconnectAttempts 0)).2 = false := by
  have h : demuxLoopAllFail (setMaxReconnectAttempts 0)
      = ([DemuxEvent.openAttempt, DemuxEvent.errorRetryExhausted 0,
          DemuxEvent.statusStopped], false) := by
    simp [demuxLoopAllFail, demuxLoopAllFailFrom, setMaxReconnectAttempts]
  refine ⟨h, ?_, ?_, ?_⟩ <;> rw [h] <;> decide

/-- C3 counterexample: with `max_attempts = 2` and every open attempt
failing, the demux loop emits exactly one "Retrying connection" status
message (after the first failure; the second failure reaches the cap),
not two as the claim states. -/
theorem demux_two_attempts_not_two_retries :
    ((demuxLoopAllFail (setMaxReconnectAttempts 2)).1.countP
        (fun e => DemuxEvent.isRetrying e)) = 1
  ∧ ¬ ((demuxLoopAllFail (setMaxReconnectAttempts 2)).1.countP
        (fun e => DemuxEvent.isRetrying e)) = 2 := by
  have h : demuxLoopAllFail (setMaxReconnectAttempts 2)
      = ([DemuxEvent.openAttempt, DemuxEvent.statusRetrying 1 2,
          DemuxEvent.openAttempt, DemuxEvent.errorRetryExhausted 2,
          DemuxEvent.statusStopped], false) := by
    simp [demuxLoopAllFail, demuxLoopAllFailFrom, setMaxReconnectAttempts]
  constructor <;> rw [h] <;> decide

/-- C3 (amended): when every open attempt fails and `max_attempts` is
set to 2 (with any delay), the demux loop makes two open attempts and
emits exactly one "Retrying connection" status message, then a terminal
error, then the status "Stopped", after which `is_running()` returns
false. -/
theorem demux_two_attempts_sequence :
    demuxLoopAllFail (setMaxReconnectAttempts 2)
      = ([DemuxEvent.openAttempt, DemuxEvent.statusRetrying 1 2,
          DemuxEvent.openAttempt, DemuxEvent.errorRetryExhausted 2,
          DemuxEvent.statusStopped], false) := by
  simp [demuxLoopAllFail, demuxLoopAllFailFrom, setMaxReconnectAttempts]


theorem dropLoop_of_lt {α : Type} (l : List α) (m : Nat) (h : l.length < m) :
    dropLoop l m = (l, 0) := by
  unfold dropLoop
  rw [if_neg (by omega)]

theorem dropLoop_cons_of_eq {α : Type} (x : α) (xs : List α) (m : Nat)
    (h : (x :: xs).length = m) : dropLoop (x :: xs) m = (xs, 1) := by
  unfold dropLoop
  rw [if_pos (by omega)]
  have hxs : xs.length < m := by simp at h; omega
  simp [dropLoop_of_lt xs m hxs]

theorem push_dropOldest_succeeds {α : Type} (Q : List α) (M D : Nat) (p : α)
    (hM : 1 ≤ M) (hlen : Q.length ≤ M) :
    PacketQueue.push
        { queue := Q, maxSize := M, closed := false,
          policy := OverflowPolicy.DropOldest, droppedCount := D } p true true
      = (PushResult.succeeded,
         { queue := (Q ++ [p]).drop (Q.length + 1 - M), maxSize := M,
           closed := false, policy := OverflowPolicy.DropOldest,
           droppedCount := D + (Q.length + 1 - M) }) := by
  rcases Nat.lt_or_ge Q.length M with hlt | hge
  · have h0 : Q.length + 1 - M = 0 := by omega
    simp [PacketQueue.push, dropLoop_of_lt Q M hlt, h0]
  · have heq : Q.length = M := Nat.le_antisymm hlen hge
    cases Q with
    | nil => simp at heq; omega
    | cons x xs =>
      have h2 : xs.length + 1 + 1 - M = 1 := by simp at heq; omega
      simp [PacketQueue.push, dropLoop_cons_of_eq x xs M heq, h2]

theorem pushAll_dropOldest {α : Type} (ps : List α) (Q : List α) (M D : Nat)
    (hM : 1 ≤ M) (hlen : Q.length ≤ M) :
    PacketQueue.pushAll
        { queue := Q, maxSize := M, closed := false,
          policy := OverflowPolicy.DropOldest, droppedCount := D } ps
      = ({ queue := (Q ++ ps).drop (Q.length + ps.length - M), maxSize := M,
           closed := false, policy := OverflowPolicy.DropOldest,
           droppedCount := D + (Q.length + ps.length - M) }, true) := by
  induction ps generalizing Q D with
  | nil =>
    have h0 : Q.length - M = 0 := by omega
    simp [PacketQueue.pushAll, h0]
  | cons p rest ih =>
    have hlen' : ((Q ++ [p]).drop (Q.length + 1 - M)).length ≤ M := by
      simp; omega
    simp only [PacketQueue.pushAll, push_dropOldest_succeeds Q M D p hM hlen,
      ih _ _ hlen']
    have hq : List.drop ((List.drop (Q.length + 1 - M) (Q ++ [p])).length +
          rest.length - M)
            (List.drop (Q.length + 1 - M) (Q ++ [p]) ++ rest)
        = List.drop (Q.length + (p :: rest).length - M) (Q ++ p :: rest) := by
      rw [← List.drop_append_of_le_length (by simp), List.drop_drop,
          List.append_assoc, List.singleton_append]
      congr 1
      simp
      omega
    rw [hq]
    simp
    omega

/-- C1: on an open, initially empty DropOldest queue of capacity
`C ≥ 1` with the running flag true, a burst of `M > C` pushes with no
concurrent pops succeeds on every call, leaves the queue holding
exactly the `C` most recently pushed packets in FIFO order, and grows
the dropped counter by exactly `M - C`. -/
theorem dropOldest_burst_keeps_latest (C D : Nat) (ps : List Nat)
    (hC : 1 ≤ C) (hM : C < ps.length) :
    PacketQueue.pushAll
        { queue := [], maxSize := C, closed := false,
          policy := OverflowPolicy.DropOldest, droppedCount := D } ps
      = ({ queue := ps.drop (ps.length - C), maxSize := C, closed := false,
           policy := OverflowPolicy.DropOldest,
           droppedCount := D + (ps.length - C) }, true)
  ∧ (ps.drop (ps.length - C)).length = C := by
  constructor
  · have h := pushAll_dropOldest ps [] C D hC (by simp)
    simpa using h
  · simp
    omega

theorem dropOldest_burst_keeps_latest_witness :
    (1 ≤ 2 ∧ 2 < ([10, 20, 30, 40, 50] : List Nat).length)
  ∧ (PacketQueue.pushAll
        { queue := [], maxSize := 2, closed := false,
          policy := OverflowPolicy.DropOldest, droppedCount := 3 }
        [10, 20, 30, 40, 50]
      = ({ queue := [10, 20, 30, 40, 50].drop
             (([10, 20, 30, 40, 50] : List Nat).length - 2),
           maxSize := 2, closed := false,
           policy := OverflowPolicy.DropOldest,
           droppedCount := 3 + (([10, 20, 30, 40, 50] : List Nat).length - 2) },
         true)
      ∧ (([10, 20, 30, 40, 50] : List Nat).drop
          (([10, 20, 30, 40, 50] : List Nat).length - 2)).length = 2) :=
  ⟨⟨by decide, by decide⟩,
   dropOldest_burst_keeps_latest 2 3 [10, 20, 30, 40, 50]
     (by decide) (by decide)⟩

theorem dropLoop_length_lt {α : Type} (l : List α) (m : Nat) (hm : 1 ≤ m) :
    (dropLoop l m).1.length < m := by
  induction l with
  | nil =>
    unfold dropLoop
    split
    · simpa using hm
    · simpa using hm
  | cons x xs ih =>
    unfold dropLoop
    split
    · rcases hE : dropLoop xs m with ⟨r, d⟩
      rw [hE] at ih
      simpa [hE] using ih
    next hcond =>
      simp at hcond ⊢
      omega

theorem trimLoop_length_le {α : Type} (l : List α) (n : Nat) :
    (trimLoop l n).length ≤ n := by
  induction l with
  | nil =>
    unfold trimLoop
    split <;> simp
  | cons x xs ih =>
    unfold trimLoop
    split
    · exact ih
    next hcond =>
      simp at hcond ⊢
      omega

/-- C2 counterexample: a Block-policy queue of capacity 2 filled by two
successful pushes and then shrunk with `setMaxSize 1` — a reachable
state obtained by legal operations — holds 2 packets against a
capacity of 1, so "size ≤ capacity after every operation" fails:
`setMaxSize` only trims under DropOldest. -/
theorem setMaxSize_block_shrink_overflows :
    ((((PacketQueue.init Nat 2 OverflowPolicy.Block).push 0 true true).2.push 1
        true true).2.setMaxSize 1).maxSize
      < ((((PacketQueue.init Nat 2 OverflowPolicy.Block).push 0 true
        true).2.push 1 true true).2.setMaxSize 1).size := by
  decide

/-- C2 (amended): on any queue currently satisfying `size ≤ capacity`,
every operation preserves the bound — push under either policy (under
DropOldest provided the capacity is at least 1; capacity 0 would make
the source's drop loop read the front of an empty deque), pop, clear,
close, open, and `setMaxSize` under DropOldest for any new capacity —
while `setMaxSize` under Block preserves it only when the new capacity
is at least the current size, since it never trims. -/
theorem queue_ops_preserve_capacity_bound {α : Type} (q : PacketQueue α)
    (h : q.size ≤ q.maxSize) :
    (∀ (p : α) (running refOk : Bool),
        (q.policy = OverflowPolicy.DropOldest → 1 ≤ q.maxSize) →
        ((q.push p running refOk).2).size ≤ ((q.push p running refOk).2).maxSize)
  ∧ (∀ running, ((q.pop running).2).size ≤ ((q.pop running).2).maxSize)
  ∧ q.clear.size ≤ q.clear.maxSize
  ∧ q.close.size ≤ q.close.maxSize
  ∧ q.openQueue.size ≤ q.openQueue.maxSize
  ∧ (∀ n, q.policy = OverflowPolicy.DropOldest →
        (q.setMaxSize n).size ≤ (q.setMaxSize n).maxSize)
  ∧ (∀ n, q.size ≤ n → (q.setMaxSize n).size ≤ (q.setMaxSize n).maxSize) := by
  obtain ⟨Q, M, C, P, D⟩ := q
  simp only [PacketQueue.size] at h
  refine ⟨?_, ?_, ?_, ?_, ?_, ?_, ?_⟩
  · intro p running refOk hpol
    cases P with
    | Block =>
      simp only [PacketQueue.push, PacketQueue.size]
      split
      · exact h
      next hblocked =>
        split
        · exact h
        next hfail =>
          split
          · exact h
          · push_neg at hblocked
            simp only [not_or] at hfail
            have hC : C = false := by
              cases C
              · rfl
              · exact absurd rfl hfail.1
            have hrun : running = true := by
              cases running
              · exact absurd rfl hfail.2
              · rfl
            have hlt := hblocked hC hrun
            simp only [PacketQueue.size, List.length_append, List.length_cons,
              List.length_nil]
            omega
    | DropOldest =>
      have hM : 1 ≤ M := hpol rfl
      simp only [PacketQueue.push]
      split
      · exact h
      next hfail =>
        rcases hE : dropLoop Q M with ⟨l, d⟩
        have hlt : l.length < M := by
          have := dropLoop_length_lt Q M hM
          rw [hE] at this
          simpa using this
        split <;> simp [hE, PacketQueue.size] <;> omega
  · intro running
    simp only [PacketQueue.pop]
    split
    · exact h
    · split <;> simp_all [PacketQueue.size] <;> omega
  · simp [PacketQueue.clear, PacketQueue.size]
  · simpa [PacketQueue.close, PacketQueue.size] using h
  · simpa [PacketQueue.openQueue, PacketQueue.size] using h
  · intro n hpol
    cases P with
    | Block => simp at hpol
    | DropOldest =>
      simpa [PacketQueue.setMaxSize, PacketQueue.size] using
        trimLoop_length_le Q n
  · intro n hn
    cases P with
    | Block =>
      simpa [PacketQueue.setMaxSize, PacketQueue.size] using hn
    | DropOldest =>
      simpa [PacketQueue.setMaxSize, PacketQueue.size] using
        trimLoop_length_le Q n

theorem queue_ops_preserve_capacity_bound_witness :
    (({ queue := [4, 5], maxSize := 3, closed := false,
        policy := OverflowPolicy.Block,
        droppedCount := 0 } : PacketQueue Nat).size
      ≤ ({ queue := [4, 5], maxSize := 3, closed := false,
           policy := OverflowPolicy.Block,
           droppedCount := 0 } : PacketQueue Nat).maxSize)
  ∧ ((({ queue := [4, 5], maxSize := 3, closed := false,
         policy := OverflowPolicy.Block,
         droppedCount := 0 } : PacketQueue Nat).push 7 true true).2.size
      ≤ (({ queue := [4, 5], maxSize := 3, closed := false,
            policy := OverflowPolicy.Block,
            droppedCount := 0 } : PacketQueue Nat).push 7 true true).2.maxSize) :=
  ⟨by decide,
   (queue_ops_preserve_capacity_bound
      ({ queue := [4, 5], maxSize := 3, closed := false,
         policy := OverflowPolicy.Block,
         droppedCount := 0 } : PacketQueue Nat) (by decide)).1
     7 true true (by decide)⟩

theorem removeQueryItem_of_not_has (k : String) (q : List (String × String))
    (h : hasQueryItem k q = false) : removeQueryItem k q = q := by
  induction q with
  | nil => rfl
  | cons kv rest ih =>
    simp [hasQueryItem] at h
    have hrest : removeQueryItem k rest = rest := by
      apply ih
      simp [hasQueryItem]
      exact h.2
    simp [removeQueryItem, h.1, hrest]

theorem removeQueryItem_sublist (k : String) (q : List (String × String)) :
    (removeQueryItem k q).Sublist q := by
  induction q with
  | nil => simp [removeQueryItem]
  | cons kv rest ih =>
    by_cases hk : kv.1 = k
    · simp [removeQueryItem, hk]
    · simpa [removeQueryItem, hk] using ih.cons₂ kv

theorem hasQueryItem_eq_false_of_forall (k : String)
    (q : List (String × String))
    (h : ∀ a b, (a, b) ∈ q → ¬a = k) : hasQueryItem k q = false := by
  simp only [hasQueryItem, List.any_eq_false]
  intro a ha
  simpa using h a.1 a.2 (by simpa using ha)

theorem hasQueryItem_remove_self_of_count_le_one (k : String)
    (q : List (String × String))
    (h : q.countP (fun kv => kv.1 = k) ≤ 1) :
    hasQueryItem k (removeQueryItem k q) = false := by
  induction q with
  | nil => simp [removeQueryItem, hasQueryItem]
  | cons kv rest ih =>
    by_cases hk : kv.1 = k
    · simp only [removeQueryItem, if_pos hk]
      rw [List.countP_cons] at h
      simp [hk] at h
      exact hasQueryItem_eq_false_of_forall k rest h
    · simp only [removeQueryItem, if_neg hk]
      have hrest : rest.countP (fun kv => kv.1 = k) ≤ 1 := by
        rw [List.countP_cons] at h
        have hd : decide (kv.1 = k) = false := decide_eq_false hk
        rw [hd] at h
        simpa using h
      have hr := ih hrest
      simp [hasQueryItem] at hr ⊢
      exact ⟨hk, hr⟩

theorem hasQueryItem_sublist_false (k : String)
    (l l' : List (String × String)) (hsub : l'.Sublist l)
    (h : hasQueryItem k l = false) : hasQueryItem k l' = false := by
  simp only [hasQueryItem, List.any_eq_false] at h ⊢
  intro a ha
  exact h a (hsub.subset ha)

/-- C8 (amended): for every valid URL whose lower-cased scheme is
`rtmp` or `tcp`, sanitisation removes the first `listen` and the first
`listen_timeout` query item and leaves every other part of the URL
unchanged — so when each of the two keys occurs at most once (as in
the claim's example) no `listen`/`listen_timeout` item survives; every
invalid URL, and every URL of any other scheme, is returned
unchanged. -/
theorem sanitizeInputUrl_behaviour (u : UrlModel) :
    (u.valid = false → sanitizeInputUrl u = u)
  ∧ (u.valid = true →
      ¬(qtToLower u.scheme = "rtmp" ∨ qtToLower u.scheme = "tcp") →
      sanitizeInputUrl u = u)
  ∧ (u.valid = true →
      (qtToLower u.scheme = "rtmp" ∨ qtToLower u.scheme = "tcp") →
      (sanitizeInputUrl u).query
        = removeQueryItem "listen_timeout" (removeQueryItem "listen" u.query)
      ∧ (sanitizeInputUrl u).scheme = u.scheme
      ∧ (sanitizeInputUrl u).base = u.base
      ∧ (sanitizeInputUrl u).valid = u.valid
      ∧ (sanitizeInputUrl u).isEmptyStr = u.isEmptyStr)
  ∧ (u.valid = true →
      (qtToLower u.scheme = "rtmp" ∨ qtToLower u.scheme = "tcp") →
      u.query.countP (fun kv => kv.1 = "listen") ≤ 1 →
      u.query.countP (fun kv => kv.1 = "listen_timeout") ≤ 1 →
      hasQueryItem "listen" (sanitizeInputUrl u).query = false
      ∧ hasQueryItem "listen_timeout" (sanitizeInputUrl u).query = false) := by
  obtain ⟨e, v, sc, b, qr⟩ := u
  have part3 : v = true →
      (qtToLower sc = "rtmp" ∨ qtToLower sc = "tcp") →
      (sanitizeInputUrl ⟨e, v, sc, b, qr⟩).query
        = removeQueryItem "listen_timeout" (removeQueryItem "listen" qr)
      ∧ (sanitizeInputUrl ⟨e, v, sc, b, qr⟩).scheme = sc
      ∧ (sanitizeInputUrl ⟨e, v, sc, b, qr⟩).base = b
      ∧ (sanitizeInputUrl ⟨e, v, sc, b, qr⟩).valid = v
      ∧ (sanitizeInputUrl ⟨e, v, sc, b, qr⟩).isEmptyStr = e := by
    intro hv hs
    subst hv
    by_cases h1 : hasQueryItem "listen" qr = true
    · by_cases h2 : hasQueryItem "listen_timeout"
          (removeQueryItem "listen" qr) = true
      · simp [sanitizeInputUrl, hs, h1, h2]
      · simp [sanitizeInputUrl, hs, h1, h2,
          removeQueryItem_of_not_has _ _ (by simpa using h2)]
    · have hid1 : removeQueryItem "listen" qr = qr :=
        removeQueryItem_of_not_has _ _ (by simpa using h1)
      by_cases h2 : hasQueryItem "listen_timeout" qr = true
      · simp [sanitizeInputUrl, hs, h1, h2, hid1]
      · have hid2 : removeQueryItem "listen_timeout" qr = qr :=
          removeQueryItem_of_not_has _ _ (by simpa using h2)
        simp [sanitizeInputUrl, hs, h1, h2, hid1, hid2]
  refine ⟨?_, ?_, part3, ?_⟩
  · intro hv
    replace hv : v = false := hv
    subst hv
    simp [sanitizeInputUrl]
  · intro hv hs
    replace hv : v = true := hv
    subst hv
    simp [sanitizeInputUrl, hs]
  · intro hv hs hc1 hc2
    have hq := (part3 hv hs).1
    rw [hq]
    constructor
    · exact hasQueryItem_sublist_false _ _ _
        (removeQueryItem_sublist "listen_timeout" _)
        (hasQueryItem_remove_self_of_count_le_one "listen" qr hc1)
    · apply hasQueryItem_remove_self_of_count_le_one
      calc (removeQueryItem "listen" qr).countP
              (fun kv => kv.1 = "listen_timeout")
          ≤ qr.countP (fun kv => kv.1 = "listen_timeout") :=
            (removeQueryItem_sublist "listen" qr).countP_le _
        _ ≤ 1 := hc2

/-- C8 counterexample: a valid rtmp URL carrying the query
`listen=1&listen=2` still carries a `listen` item after sanitisation:
`QUrlQuery::removeQueryItem` removes only the first pair with the key,
so "removes any listen parameters" fails on duplicates. -/
theorem sanitize_keeps_duplicate_listen :
    hasQueryItem "listen"
      (sanitizeInputUrl
        { isEmptyStr := false, valid := true, scheme := "rtmp",
          base := "rtmp://host/app",
          query := [("listen", "1"), ("listen", "2")] }).query = true := by
  decide

theorem sanitizeInputUrl_behaviour_witness :
    (({ isEmptyStr := false, valid := true, scheme := "rtmp",
        base := "rtmp://host/app/stream",
        query := [("listen", "1"), ("listen_timeout", "30")] } :
          UrlModel).valid = true)
  ∧ (qtToLower "rtmp" = "rtmp" ∨ qtToLower "rtmp" = "tcp")
  ∧ ([("listen", "1"), ("listen_timeout", "30")].countP
      (fun kv => kv.1 = "listen") ≤ 1)
  ∧ ([("listen", "1"), ("listen_timeout", "30")].countP
      (fun kv => kv.1 = "listen_timeout") ≤ 1)
  ∧ (hasQueryItem "listen"
      (sanitizeInputUrl
        { isEmptyStr := false, valid := true, scheme := "rtmp",
          base := "rtmp://host/app/stream",
          query := [("listen", "1"), ("listen_timeout", "30")] }).query = false
    ∧ hasQueryItem "listen_timeout"
      (sanitizeInputUrl
        { isEmptyStr := false, valid := true, scheme := "rtmp",
          base := "rtmp://host/app/stream",
          query := [("listen", "1"), ("listen_timeout", "30")] }).query = false) :=
  ⟨rfl, by decide, by decide, by decide,
   (sanitizeInputUrl_behaviour
      { isEmptyStr := false, valid := true, scheme := "rtmp",
        base := "rtmp://host/app/stream",
        query := [("listen", "1"), ("listen_timeout", "30")] }).2.2.2
     rfl (by decide) (by decide) (by decide)⟩

/-- C6 (the code evaluated at the failing input): with the pending
audio FIFO holding the buffers `[1,2,3,4]` and `[5,6]` and the sink
reporting 2 free bytes, the pump tick delivers `[1,2]`, re-queues the
remainder `[3,4]` at the front of the pending FIFO — but discards
`[5,6]` with the local batch; the following tick (ample free space)
delivers `[3,4]` and leaves the FIFO empty, so the bytes delivered
across ticks are `[1,2,3,4]`, not the concatenation
`[1,2,3,4,5,6]` of the enqueued buffers: bytes are lost. -/
theorem audio_pump_discards_batch_tail :
    processAudioQueue [[1, 2, 3, 4], [5, 6]] 2 = ([[3, 4]], 0, [1, 2])
  ∧ processAudioQueue [[3, 4]] 100 = ([], 98, [3, 4])
  ∧ ([1, 2] ++ [3, 4] : List Nat) ≠ [[1, 2, 3, 4], [5, 6]].flatten := by
  refine ⟨?_, ?_, by decide⟩ <;>
    simp [processAudioQueue, processBatch, writeChunks]

/-- C9: `start` with an empty URL emits the "Stream URL is empty."
error and returns before anything else: no worker thread is spawned
and every part of the player state — running flag, both queues, the
current URL, the pending audio, any in-progress session's threads — is
left untouched. -/
theorem start_empty_url_rejected (s : PlayerState) (url : UrlModel)
    (h : url.isEmptyStr = true) :
    startPlayer s url = (s, [PlayerEvent.errorUrlEmpty])
  ∧ (startPlayer s url).1.workerThreads = s.workerThreads
  ∧ (startPlayer s url).1.running = s.running
  ∧ (startPlayer s url).1.videoQueue = s.videoQueue
  ∧ (startPlayer s url).1.audioQueue = s.audioQueue
  ∧ (startPlayer s url).1.currentUrl = s.currentUrl := by
  refine ⟨?_, ?_, ?_, ?_, ?_, ?_⟩ <;> simp [startPlayer, h]

theorem start_empty_url_rejected_witness :
    (({ isEmptyStr := true, valid := false, scheme := "", base := "",
        query := [] } : UrlModel).isEmptyStr = true)
  ∧ (startPlayer
      { running := false, stopRequested := false,
        videoQueue := PacketQueue.init Nat 90 OverflowPolicy.DropOldest,
        audioQueue := PacketQueue.init Nat 180 OverflowPolicy.Block,
        currentUrl := { isEmptyStr := true, valid := false, scheme := "",
                        base := "", query := [] },
        audioPendingQueue := [], bitrateKbps := 0, workerThreads := 0 }
      { isEmptyStr := true, valid := false, scheme := "", base := "",
        query := [] }
      = ({ running := false, stopRequested := false,
           videoQueue := PacketQueue.init Nat 90 OverflowPolicy.DropOldest,
           audioQueue := PacketQueue.init Nat 180 OverflowPolicy.Block,
           currentUrl := { isEmptyStr := true, valid := false, scheme := "",
                           base := "", query := [] },
           audioPendingQueue := [], bitrateKbps := 0, workerThreads := 0 },
         [PlayerEvent.errorUrlEmpty])) :=
  ⟨rfl,
   (start_empty_url_rejected
      { running := false, stopRequested := false,
        videoQueue := PacketQueue.init Nat 90 OverflowPolicy.DropOldest,
        audioQueue := PacketQueue.init Nat 180 OverflowPolicy.Block,
        currentUrl := { isEmptyStr := true, valid := false, scheme := "",
                        base := "", query := [] },
        audioPendingQueue := [], bitrateKbps := 0, workerThreads := 0 }
      { isEmptyStr := true, valid := false, scheme := "", base := "",
        query := [] } rfl).1⟩
